import Mathlib

/-
Verification of the sChat backend (src/main.py): a FastAPI service that fans a
prompt out to several LLM gateway models, tracks per-model status in a
process-wide dictionary, aggregates the answers with one further call, and
appends JSON log records.  The Python code is shallowly embedded: Python
dictionaries become partial maps `String → Option α`, Python `str` operations
(`split`, `strip`, `lower`, `replace`, `in`, `startswith`) become executable
functions over `List Char` with the same semantics, external HTTP calls become
explicit outcome parameters, and wall-clock times become abstract `Nat`
timestamps.
-/

set_option maxRecDepth 20000

namespace SChat

/-! ## Embeddings of the Python `str` operations used by main.py -/

/-- The ASCII whitespace characters Python's `str.strip()` removes. -/
def pyIsSpace (c : Char) : Bool :=
  c == ' ' || c == '\t' || c == '\n' || c == '\r' || c == '\x0b' || c == '\x0c'

/-- Whether `p` is a prefix of the second list (Python `startswith`, and the
basic step of substring search). -/
def isPrefixCL : List Char → List Char → Bool
  | [], _ => true
  | _ :: _, [] => false
  | a :: as, b :: bs => a == b && isPrefixCL as bs

/-- Whether `p` occurs as a contiguous substring (Python `p in s`). -/
def containsCL (p : List Char) : List Char → Bool
  | [] => isPrefixCL p []
  | c :: rest => isPrefixCL p (c :: rest) || containsCL p rest

/-- Python `str.lower()` (the source only lowercases ASCII model names and
optimizer output). -/
def lowerCL (l : List Char) : List Char := l.map Char.toLower

/-- Python `str.strip()`: drop leading and trailing whitespace. -/
def stripCL (l : List Char) : List Char :=
  ((l.dropWhile pyIsSpace).reverse.dropWhile pyIsSpace).reverse

/-- Python `str.split('\n')`: split on every newline, keeping empty parts;
`''.split('\n') == ['']`. -/
def splitNlCL : List Char → List (List Char)
  | [] => [[]]
  | c :: rest =>
    if c == '\n' then [] :: splitNlCL rest
    else
      match splitNlCL rest with
      | [] => [[c]]
      | l :: ls => (c :: l) :: ls

/-- Python `'\n'.join(...)`. -/
def joinNlCL : List (List Char) → List Char
  | [] => []
  | [l] => l
  | l :: l2 :: ls => l ++ '\n' :: joinNlCL (l2 :: ls)

/-- Python `str.replace(pat, repl)` for a non-empty pattern, on fuel: each
step consumes at least one character, so `fuel = s.length` suffices; the fuel
only makes the recursion structural. -/
def replaceCLAux (pat repl : List Char) : Nat → List Char → List Char
  | 0, s => s
  | fuel + 1, s =>
    match s with
    | [] => []
    | c :: rest =>
      match pat, isPrefixCL pat s with
      | _ :: ps, true => repl ++ replaceCLAux pat repl fuel (rest.drop ps.length)
      | _, _ => c :: replaceCLAux pat repl fuel rest

/-- Python `str.replace(pat, repl)` for a non-empty pattern: replace every
(leftmost, non-overlapping) occurrence.  The source only ever replaces the
non-empty pattern ":online". -/
def replaceCL (pat repl s : List Char) : List Char :=
  replaceCLAux pat repl s.length s

/-- Python `str.lower` lifted to `String`. -/
def pyLower (s : String) : String := ⟨lowerCL s.data⟩

/-- Python `sub in s` lifted to `String`. -/
def pyContains (sub s : String) : Bool := containsCL sub.data s.data

/-- Python `str.strip()` lifted to `String`. -/
def pyStrip (s : String) : String := ⟨stripCL s.data⟩

/-- Python `s.split('\n')` lifted to `String`. -/
def pySplitLines (s : String) : List String := (splitNlCL s.data).map (fun l => ⟨l⟩)

/-- Python `'\n'.join(lines)` lifted to `String`. -/
def pyJoinLines (ls : List String) : String := ⟨joinNlCL (ls.map String.data)⟩

/-- Python `s.replace(pat, repl)` lifted to `String`. -/
def pyReplace (s pat repl : String) : String := ⟨replaceCL pat.data repl.data s.data⟩

/-- Python `line.startswith(' ')`. -/
def startsWithSpace (s : String) : Bool := isPrefixCL [' '] s.data

/-! ## Data model

`query_status` and `query_results` (main.py lines 21 and 25) are Python
dictionaries keyed by request ids; they are embedded as partial maps. -/

/-- A Python dictionary keyed by strings. -/
def StrMap (α : Type) : Type := String → Option α

/-- The empty dictionary. -/
def StrMap.empty {α : Type} : StrMap α := fun _ => none

/-- Python `d[k] = v`. -/
def StrMap.set {α : Type} (m : StrMap α) (k : String) (v : α) : StrMap α :=
  fun k2 => if k2 = k then some v else m k2

/-- One model's status record inside `query_status[request_id]["models"]`:
`{status, start_time, end_time, error}` (main.py lines 87-92 etc.). -/
structure ModelEntry where
  status : String
  start_time : Option Nat
  end_time : Option Nat
  error : Option String
deriving Repr, DecidableEq

/-- `query_status[request_id]`: per-model entries plus `aggregation_status`
(main.py lines 382-386). -/
structure RequestStatus where
  models : StrMap ModelEntry
  aggregation_status : String

/-- The dictionary `query_model` returns (main.py lines 128-133 etc.). -/
structure ModelResult where
  model : String
  response : String
  tokens : Nat
  error : Option String
deriving Repr, DecidableEq

/-- The `usage` object of a gateway response (completion and total tokens). -/
structure Usage where
  completion_tokens : Nat
  total_tokens : Nat
deriving Repr, DecidableEq

/-- Outcome of the awaited external call inside `query_model`: the call
returns content (with optional usage data), times out, or raises. -/
inductive CallOutcome where
  | success (content : String) (usage : Option Usage)
  | timedOut
  | failure (msg : String)
deriving Repr, DecidableEq

/-- One entry of the `individual` list stored in `query_results`
(main.py lines 308-315). -/
structure IndividualView where
  model : String
  response : String
  tokens : Nat
deriving Repr, DecidableEq

/-- A value of `query_results[request_id]`: either the failure record
`{"error": ...}` (main.py line 295) or the completed record
`{aggregated, individual, request_id}` (main.py lines 318-322). -/
inductive StoredResult where
  | failed (error : String)
  | completedResult (aggregated : String) (individual : List IndividualView)
      (request_id : String)
deriving Repr, DecidableEq

/-- One record of the append-only `query_log.json` file
(main.py lines 335-351). -/
structure LogRecord where
  timestamp : String
  user_prompt : String
  models_used : List String
  aggregator : String
  individual_responses : List ModelResult
  aggregated_response : String
  total_tokens : Nat
deriving Repr, DecidableEq

/-- The process-wide mutable state: the two dictionaries plus the query log
file modelled as its parsed list of records. -/
structure AppState where
  query_status : StrMap RequestStatus
  query_results : StrMap StoredResult
  query_log : List LogRecord

/-! ## Constants of main.py -/

/-- `AVAILABLE_MODELS` (main.py lines 46-52). -/
def AVAILABLE_MODELS : List String :=
  ["openai/gpt-4o:online",
   "anthropic/claude-sonnet-4.5:online",
   "perplexity/sonar-pro",
   "x-ai/grok-4:online",
   "google/gemini-2.0-flash-001:online"]

/-- `AGGREGATOR_MODELS` (main.py line 55). -/
def AGGREGATOR_MODELS : List String :=
  AVAILABLE_MODELS ++ ["deepseek/deepseek-chat:online"]

/-- The request body of `/api/chat` (`ChatRequest`, main.py lines 60-63). -/
structure ChatRequest where
  prompt : String
  models : List String
  aggregator : String := "anthropic/claude-sonnet-4.5"

/-! ## query_model (main.py lines 78-171) -/

/-- The per-call timeout in seconds (main.py line 81), rendered the way
Python interpolates the float into the timeout message. -/
def queryTimeoutStr (model : String) : String :=
  if pyContains "grok" (pyLower model) || pyContains "claude" (pyLower model) then
    "120.0"
  else
    "60.0"

/-- The guarded status write
`if request_id and request_id in query_status: query_status[request_id]["models"][model] = e`
(Python's truthiness makes the empty string skip the write). -/
def setModelStatus (qs : StrMap RequestStatus) (request_id : Option String)
    (model : String) (e : ModelEntry) : StrMap RequestStatus :=
  match request_id with
  | none => qs
  | some rid =>
    if rid ≠ "" then
      match qs rid with
      | some rs => qs.set rid { rs with models := rs.models.set model e }
      | none => qs
    else qs

/-- Token extraction from the response usage (main.py lines 109-115):
`completion_tokens`, falling back to `min(total_tokens, 4000)` when that is 0. -/
def computeTokens : Option Usage → Nat
  | none => 0
  | some u =>
    if u.completion_tokens ≠ 0 then u.completion_tokens
    else min u.total_tokens 4000

/-- `query_model` (main.py lines 78-171).  The external call's outcome and the
two wall-clock readings are passed in; the function returns the result record
and the updated status map.  Every branch of the Python function returns a
dictionary (exceptions are caught), so the embedding is a total function. -/
def query_model (model _prompt : String) (request_id : Option String)
    (outcome : CallOutcome) (start_time end_time : Nat)
    (qs : StrMap RequestStatus) : ModelResult × StrMap RequestStatus :=
  let qs1 := setModelStatus qs request_id model
    { status := "querying", start_time := some start_time,
      end_time := none, error := none }
  match outcome with
  | .success content usage =>
    let tokens := computeTokens usage
    let qs2 := setModelStatus qs1 request_id model
      { status := "completed", start_time := some start_time,
        end_time := some end_time, error := none }
    ({ model := model, response := content, tokens := tokens, error := none }, qs2)
  | .timedOut =>
    let error_msg := "Request timed out after " ++ queryTimeoutStr model ++ " seconds"
    let qs2 := setModelStatus qs1 request_id model
      { status := "timeout", start_time := some start_time,
        end_time := some end_time, error := some error_msg }
    ({ model := model, response := "", tokens := 0, error := some error_msg }, qs2)
  | .failure msg =>
    let qs2 := setModelStatus qs1 request_id model
      { status := "error", start_time := some start_time,
        end_time := some end_time, error := some msg }
    ({ model := model, response := "", tokens := 0, error := some msg }, qs2)

/-! ## /api/chat (main.py lines 358-392) -/

/-- The status entry `chat` creates for every selected model
(main.py line 383). -/
def pendingEntry : ModelEntry :=
  { status := "pending", start_time := none, end_time := none, error := none }

/-- The `chat` endpoint (main.py lines 358-392): validate the model list,
then install the fresh request id with all-pending statuses and return it.
`fresh_id` stands for `str(uuid.uuid4())`; the background task receives the
request data unchanged and is modelled separately by
`process_query_background`.  The result is the HTTP response (`.error` is the
raised HTTP status code) together with the status map after the call. -/
def chat (req : ChatRequest) (fresh_id : String) (qs : StrMap RequestStatus) :
    Except Nat String × StrMap RequestStatus :=
  let invalid_models := req.models.filter (fun m => !AVAILABLE_MODELS.contains m)
  if invalid_models ≠ [] then
    (.error 400, qs)
  else if req.models = [] then
    (.error 400, qs)
  else
    let entry : RequestStatus :=
      { models := fun m => if req.models.contains m then some pendingEntry else none,
        aggregation_status := "pending" }
    (.ok fresh_id, qs.set fresh_id entry)

/-! ## /api/status/{request_id} (main.py lines 251-282) -/

/-- One entry of the response of `/api/status` (main.py lines 273-277). -/
structure ModelStatusView where
  status : String
  elapsed : Option Nat
  error : Option String

/-- The response of `/api/status` (main.py lines 279-282). -/
structure StatusView where
  models : StrMap ModelStatusView
  aggregation_status : String

/-- `get_status` (main.py lines 251-282): 404 on an unknown request id,
otherwise the per-model statuses with elapsed times (timestamps are abstract
`Nat` seconds; Python's float rounding is immaterial to the claims).  The
endpoint does not mutate the status map; the map is returned to make that
explicit. -/
def get_status (request_id : String) (current_time : Nat)
    (qs : StrMap RequestStatus) : Except Nat StatusView × StrMap RequestStatus :=
  match qs request_id with
  | none => (.error 404, qs)
  | some status_data =>
    let models_status : StrMap ModelStatusView := fun m =>
      (status_data.models m).map (fun data =>
        { status := data.status,
          elapsed := data.start_time.map (fun st => (data.end_time.getD current_time) - st),
          error := data.error })
    (.ok { models := models_status,
           aggregation_status := status_data.aggregation_status }, qs)

/-! ## /api/result/{request_id} (main.py lines 394-411) -/

/-- The body of a successful `/api/result` response: the stored result, or
`{"status": "processing"}` when it is not ready yet (main.py line 411). -/
inductive ResultBody where
  | stored (r : StoredResult)
  | processing
deriving Repr, DecidableEq

/-- `get_result` (main.py lines 394-411): 404 when the id is not in
`query_status`; the stored result when `query_results` has it; otherwise
`{"status": "processing"}`.  Neither map is mutated (the clean-up lines are
commented out in the source); both are returned to make that explicit. -/
def get_result (request_id : String) (qs : StrMap RequestStatus)
    (qr : StrMap StoredResult) :
    Except Nat ResultBody × StrMap RequestStatus × StrMap StoredResult :=
  match qs request_id with
  | none => (.error 404, qs, qr)
  | some _ =>
    match qr request_id with
    | some result => (.ok (.stored result), qs, qr)
    | none => (.ok .processing, qs, qr)

/-! ## aggregate_responses (main.py lines 173-249) -/

/-- The `model_notes` context hints (main.py lines 182-187), with
`dict.get(name, "")` semantics. -/
def model_notes (model_name : String) : String :=
  if model_name = "anthropic/claude-sonnet-4.5:online" then
    " (strong reasoning, detailed analysis)"
  else if model_name = "x-ai/grok-4:online" then
    " (real-time X/Twitter access)"
  else if model_name = "perplexity/sonar-pro" then
    " (native web search with citations)"
  else if model_name = "google/gemini-2.0-flash-001:online" then
    " (multimodal capabilities, Google search)"
  else ""

/-- One entry of the formatted response block (main.py lines 190-197):
the error form `\n{idx}. **{model}**{note}: [ERROR: {error}]\n` or the
success form `\n{idx}. **{model}**{note}:\n{response}\n`. -/
def responseEntry (idx : Nat) (resp : ModelResult) : String :=
  match resp.error with
  | some e =>
    "\n" ++ toString idx ++ ". **" ++ resp.model ++ "**" ++ model_notes resp.model ++
      ": " ++ "[ERROR: " ++ e ++ "]" ++ "\n"
  | none =>
    "\n" ++ toString idx ++ ". **" ++ resp.model ++ "**" ++ model_notes resp.model ++
      ":\n" ++ resp.response ++ "\n"

/-- The loop `for idx, resp in enumerate(responses, 1): formatted_responses += ...`
(main.py lines 189-197). -/
def formatted_responses (responses : List ModelResult) : String :=
  (List.enumFrom 1 responses).foldl (fun acc p => acc ++ responseEntry p.1 p.2) ""

/-- The literal text of the aggregation f-string before `{query}`
(main.py line 199-201). -/
def promptHeader : String :=
  "Synthesize these AI model responses. They already performed web searches - use only their findings.\n\nOriginal Query: "

/-- The literal text between `{query}` and `{formatted_responses}`
(main.py lines 201-204). -/
def promptMid : String := "\n\nModel Responses:\n"

/-- The literal text after `{formatted_responses}` (main.py lines 204-239). -/
def promptTail : String :=
  "\n\nOutput format:\n\n## KEY CONSENSUS\n2-3 bullet points max of baseline facts most models agree on. Include numbers, dates, names.\n\n## UNIQUE INSIGHTS BY MODEL\nWhat each model uniquely contributed (exclusive data, novel angles, sources only 1-2 models found):\n\n**From GPT-4o (Model 1):** [List unique findings, or \"No unique insights\" if overlaps with others]\n\n**From Claude (Model 2):** [List unique findings, prioritize detailed analysis and exclusive data points]\n\n**From Perplexity (Model 3):** [List unique findings, prioritize citation quality and exclusive sources]\n\n**From Grok (Model 4):** [List unique findings, prioritize X/Twitter posts and real-time social data]\n\n**From Gemini (Model 5):** [List unique findings, prioritize Google search exclusives]\n\n## WATCH FOR\n**Next 24-72 Hours:**\n- [Immediate developments, breaking news to monitor, upcoming announcements]\n- [Specific events with dates/times]\n\n**Next 1-4 Weeks:**\n- [Short-term trends to track, upcoming decisions/votes/releases]\n- [Key metrics or indicators to monitor]\n- [People, organizations, or events to follow]\n\n## SOURCES\nKey sources cited above:\n[1] Source name\n[2] Source name\n\nRules: No preambles. Start with ## KEY CONSENSUS. Show model attribution to highlight each model's unique value."

/-- The `aggregation_prompt` f-string (main.py lines 199-239). -/
def aggregation_prompt (query : String) (responses : List ModelResult) : String :=
  promptHeader ++ query ++ promptMid ++ formatted_responses responses ++ promptTail

/-- The gateway call `aggregate_responses` issues (main.py lines 242-246):
the model name is the aggregator with `:online` replaced away
(main.py line 178), the single user message is the aggregation prompt, and
`max_tokens` is 5000. -/
structure AggregationCall where
  model : String
  prompt : String
  max_tokens : Nat
deriving Repr, DecidableEq

/-- The call `aggregate_responses` constructs (main.py lines 178, 242-246). -/
def aggregate_call (query : String) (responses : List ModelResult)
    (aggregator_model : String) : AggregationCall :=
  { model := pyReplace aggregator_model ":online" "",
    prompt := aggregation_prompt query responses,
    max_tokens := 5000 }

/-- The string `aggregate_responses` returns (main.py lines 241-249): the
call's content on success, `"Error during aggregation: ..."` on an exception. -/
def aggregate_responses (outcome : Except String String) : String :=
  match outcome with
  | .ok content => content
  | .error e => "Error during aggregation: " ++ e

/-! ## process_query_background (main.py lines 284-356) -/

/-- Python truthiness of a result's error field: `not r["error"]`
(main.py lines 292 and 311) is true for `None` and for the empty string, so
a record whose error message is `""` counts as successful in the source. -/
def errorFalsy : Option String → Bool
  | none => true
  | some s => s == ""

/-- `str(KeyError(request_id))`: Python renders the missing dictionary key in
single quotes.  This is the message stored when the unguarded
`query_status[request_id]` read at main.py line 299 raises and the `except`
at line 355 catches it. -/
def keyErrorMsg (request_id : String) : String := "'" ++ request_id ++ "'"

/-- `process_query_background` (main.py lines 284-356).  The per-model fan-out
results (produced by `query_model`, whose status-map writes are modelled
separately) are passed in as `raw_responses`, the aggregation call's external
outcome as `aggOutcome`, and `datetime.now().isoformat()` as `timestamp`.
Returns the updated state together with the aggregation call that was issued,
or `none` when no aggregation happened.

A record is successful when its error is falsy (main.py line 292).  The
writes to `query_status[request_id]["aggregation_status"]` at lines 299 and
305 are unguarded: when the request id is absent from the status map, the
line-299 read raises `KeyError`, the `except` at line 355 stores
`{"error": str(e)}` under the id, and neither the aggregation call nor the
log write happens.  At line 305 the id is always present, since line 299 just
wrote it. -/
def process_query_background (request_id prompt : String) (models : List String)
    (aggregator : String) (raw_responses : List ModelResult)
    (aggOutcome : Except String String) (timestamp : String)
    (st : AppState) : AppState × Option AggregationCall :=
  let successful_responses := raw_responses.filter (fun r => errorFalsy r.error)
  if successful_responses = [] then
    ({ st with
        query_results :=
          st.query_results.set request_id (.failed "All model queries failed") },
     none)
  else
    match st.query_status request_id with
    | none =>
      ({ st with
          query_results :=
            st.query_results.set request_id (.failed (keyErrorMsg request_id)) },
       none)
    | some rs =>
      let qs1 := st.query_status.set request_id
        { rs with aggregation_status := "running" }
      let call := aggregate_call prompt raw_responses aggregator
      let aggregated := aggregate_responses aggOutcome
      let qs2 := qs1.set request_id { rs with aggregation_status := "completed" }
      let individual : List IndividualView := raw_responses.map (fun r =>
        { model := r.model,
          response := if errorFalsy r.error then r.response
            else "Error: " ++ r.error.getD "",
          tokens := r.tokens })
      let results2 :=
        st.query_results.set request_id
          (.completedResult aggregated individual request_id)
      let newRecord : LogRecord :=
        { timestamp := timestamp, user_prompt := prompt, models_used := models,
          aggregator := aggregator, individual_responses := raw_responses,
          aggregated_response := aggregated,
          total_tokens := (raw_responses.map (fun r => r.tokens)).sum }
      ({ query_status := qs2, query_results := results2,
         query_log := st.query_log ++ [newRecord] },
       some call)

/-! ## /api/optimize post-processing clean-up (main.py lines 476-498) -/

/-- The phrase list of the clean-up (main.py lines 486-489). -/
def optimizePhrases : List String :=
  ["i'll first", "i'll optimize", "based on", "rationale for",
   "here's the optimized", "here's an optimized", "the prompt provides"]

/-- `any(phrase in line.lower() for phrase in [...])` (main.py line 486). -/
def lineHasPhrase (line : String) : Bool :=
  optimizePhrases.any (fun phrase => pyContains phrase (pyLower line))

/-- One iteration of the clean-up loop (main.py lines 484-496), acting on the
state `(skip_mode, cleaned_lines)`. -/
def cleanStep (st : Bool × List String) (line : String) : Bool × List String :=
  if lineHasPhrase line then (true, st.2)
  else
    let skip_mode :=
      if st.1 && (pyStrip line != "") && !startsWithSpace line then false else st.1
    if !skip_mode then (skip_mode, st.2 ++ [line]) else (skip_mode, st.2)

/-- The clean-up loop over all lines (main.py lines 481-496), starting with
`skip_mode = False` and an empty `cleaned_lines`. -/
def cleanLines (lines : List String) : List String :=
  (lines.foldl cleanStep (false, [])).2

/-- The whole post-processing of the optimizer model's text (main.py
lines 476-498): strip it, split on newlines, run the clean-up loop, join with
newlines and strip again. -/
def optimize_cleanup (raw : String) : String :=
  let optimized := pyStrip raw
  let lines := pySplitLines optimized
  pyStrip (pyJoinLines (cleanLines lines))

/-! ## Specification-side definitions

Definitions below restate parts of the spec's claims in a different shape, to
be compared with the embedded code above. -/

/-- A per-model status value the spec's five-value enum allows. -/
def validStatus (s : String) : Prop :=
  s = "pending" ∨ s = "querying" ∨ s = "completed" ∨ s = "error" ∨ s = "timeout"

/-- Every per-model status value stored anywhere in the status map is one of
the five enum values. -/
def validStatusMap (qs : StrMap RequestStatus) : Prop :=
  ∀ rid rs, qs rid = some rs → ∀ m e, rs.models m = some e → validStatus e.status

/-- Removing the `:online` suffix when present, as the spec describes the
web-search suffix; to be compared with the code's `replace(':online', '')`. -/
def specStripOnlineSuffix (m : String) : String :=
  if ":online".data.isSuffixOf m.data then
    ⟨m.data.take (m.data.length - ":online".data.length)⟩
  else m

/-- A line the claim calls an "immediately following line" of a removed
phrase line: blank, or starting with a space. -/
def followerLine (line : String) : Bool :=
  pyStrip line == "" || startsWithSpace line

/-- The clean-up as the claim describes it: remove each line containing a
phrase plus its following blank/indented lines, keep every other line
unchanged, in order. -/
def specCleanAux : Bool → List String → List String
  | _, [] => []
  | skip, l :: ls =>
    if lineHasPhrase l then specCleanAux true ls
    else if skip && followerLine l then specCleanAux true ls
    else l :: specCleanAux false ls

/-- The claimed result of the clean-up, exactly as C7 states it: the kept
lines joined back with newlines (no further stripping). -/
def claimedCleanup (raw : String) : String :=
  pyJoinLines (specCleanAux false (pySplitLines (pyStrip raw)))

/-! ## Basic lemmas about the dictionary embedding -/

@[simp]
theorem StrMap.set_self {α : Type} (m : StrMap α) (k : String) (v : α) :
    m.set k v k = some v := by
  simp [StrMap.set]

theorem StrMap.set_other {α : Type} (m : StrMap α) (k k2 : String) (v : α)
    (h : k2 ≠ k) : m.set k v k2 = m k2 := by
  simp [StrMap.set, h]

/-! ## C1: /api/chat validation -/

/-- C1: a chat request with a model outside the allow-list, or with an empty
model list, fails with HTTP 400 and leaves the status map untouched (so no
request identifier is issued and no status entry is created); a non-empty
request entirely inside the allow-list returns the request identifier. -/
theorem chat_validates_model_list (req : ChatRequest) (fresh_id : String)
    (qs : StrMap RequestStatus) :
    (((∃ m ∈ req.models, m ∉ AVAILABLE_MODELS) ∨ req.models = []) →
      (chat req fresh_id qs).1 = .error 400 ∧ (chat req fresh_id qs).2 = qs) ∧
    ((req.models ≠ [] ∧ ∀ m ∈ req.models, m ∈ AVAILABLE_MODELS) →
      (chat req fresh_id qs).1 = .ok fresh_id) := by
  constructor
  · rintro (⟨m, hm, hnot⟩ | hempty)
    · have hcond : ∃ x ∈ req.models, x ∉ AVAILABLE_MODELS := ⟨m, hm, hnot⟩
      simp [chat, hcond]
    · simp [chat, hempty]
  · rintro ⟨hne, hall⟩
    have hcond : ¬∃ x ∈ req.models, x ∉ AVAILABLE_MODELS := by
      rintro ⟨x, hx, hnx⟩
      exact hnx (hall x hx)
    simp [chat, hcond, hne]

/-! ## C2: query_model always returns a full result record -/

/-- C2: `query_model` is total (exceptions are caught in the source) and its
result record always carries the model name, a response string, a token count
and an error field: `None` error on success, the timeout message with empty
response and 0 tokens on a timeout, and the exception message with empty
response and 0 tokens on any other failure. -/
theorem query_model_result_record (model prompt : String)
    (request_id : Option String) (outcome : CallOutcome)
    (start_time end_time : Nat) (qs : StrMap RequestStatus) :
    ((query_model model prompt request_id outcome start_time end_time qs).1.model
        = model) ∧
    (∀ content usage, outcome = .success content usage →
      (query_model model prompt request_id outcome start_time end_time qs).1.error
          = none ∧
      (query_model model prompt request_id outcome start_time end_time qs).1.response
          = content ∧
      (query_model model prompt request_id outcome start_time end_time qs).1.tokens
          = computeTokens usage) ∧
    (outcome = .timedOut →
      (query_model model prompt request_id outcome start_time end_time qs).1.error
          = some ("Request timed out after " ++ queryTimeoutStr model ++ " seconds") ∧
      (query_model model prompt request_id outcome start_time end_time qs).1.response
          = "" ∧
      (query_model model prompt request_id outcome start_time end_time qs).1.tokens
          = 0) ∧
    (∀ msg, outcome = .failure msg →
      (query_model model prompt request_id outcome start_time end_time qs).1.error
          = some msg ∧
      (query_model model prompt request_id outcome start_time end_time qs).1.response
          = "" ∧
      (query_model model prompt request_id outcome start_time end_time qs).1.tokens
          = 0) := by
  cases outcome <;> simp [query_model]

/-! ## C4: /api/chat initializes all-pending status under a fresh id -/

/-- C4: on a valid request, `chat` returns the freshly generated request id
and, at that moment, the status map holds under that id every selected model
with status `pending` (start time, end time and error unset) and an
aggregation status of `pending`; no model has been queried (the background
task runs only after the response is returned). -/
theorem chat_returns_pending_status (req : ChatRequest) (fresh_id : String)
    (qs : StrMap RequestStatus)
    (hall : ∀ m ∈ req.models, m ∈ AVAILABLE_MODELS) (hne : req.models ≠ []) :
    (chat req fresh_id qs).1 = .ok fresh_id ∧
    ∃ rs, (chat req fresh_id qs).2 fresh_id = some rs ∧
      rs.aggregation_status = "pending" ∧
      ∀ m ∈ req.models,
        rs.models m = some { status := "pending", start_time := none,
                             end_time := none, error := none } := by
  have hcond : ¬∃ x ∈ req.models, x ∉ AVAILABLE_MODELS := by
    rintro ⟨x, hx, hnx⟩
    exact hnx (hall x hx)
  refine ⟨by simp [chat, hcond, hne],
    { models := fun m => if req.models.contains m then some pendingEntry else none,
      aggregation_status := "pending" }, ?_, rfl, ?_⟩
  · simp [chat, hcond, hne]
  · intro m hm
    simp [pendingEntry, List.elem_iff, hm]

/-- Witness for C4 at a concrete valid request. -/
theorem chat_returns_pending_status_witness :
    (chat { prompt := "p", models := ["openai/gpt-4o:online"] } "rid-4"
        StrMap.empty).1 = .ok "rid-4" ∧
    ∃ rs, (chat { prompt := "p", models := ["openai/gpt-4o:online"] } "rid-4"
        StrMap.empty).2 "rid-4" = some rs ∧
      rs.aggregation_status = "pending" ∧
      ∀ m ∈ ["openai/gpt-4o:online"],
        rs.models m = some { status := "pending", start_time := none,
                             end_time := none, error := none } :=
  chat_returns_pending_status _ _ _ (by decide) (by decide)

/-! ## C9: polling endpoints on unknown or unfinished ids -/

/-- C9: both polling endpoints 404 on a request id that was never issued
(absent from the status map), and `/api/result` answers
`{"status": "processing"}` for an issued id whose result is not stored yet,
leaving both maps unchanged. -/
theorem polling_endpoints (request_id : String) (current_time : Nat)
    (qs : StrMap RequestStatus) (qr : StrMap StoredResult) :
    (qs request_id = none →
      get_status request_id current_time qs = (.error 404, qs) ∧
      get_result request_id qs qr = (.error 404, qs, qr)) ∧
    (qs request_id ≠ none → qr request_id = none →
      get_result request_id qs qr = (.ok .processing, qs, qr)) := by
  constructor
  · intro h
    simp [get_status, get_result, h]
  · intro h1 h2
    cases hq : qs request_id with
    | none => exact absurd hq h1
    | some _ => simp [get_result, hq, h2]

/-! ## C10: when every model fails, no aggregation happens -/

/-- C10: if every fan-out result carries an error (a truthy error message, the
source's `not r["error"]` test at main.py line 292 counting `None` and `""` as
success), the background processor stores
`{"error": "All model queries failed"}` under the request id, issues no
aggregation call, and leaves the whole status map (in particular the
aggregation status, which `chat` set to `pending`) untouched; no later code
path writes it again, so it stays `pending`. -/
theorem all_failed_skips_aggregation (request_id prompt : String)
    (models : List String) (aggregator timestamp : String)
    (raw : List ModelResult) (aggOutcome : Except String String) (st : AppState)
    (hall : ∀ r ∈ raw, errorFalsy r.error = false) :
    (process_query_background request_id prompt models aggregator raw
        aggOutcome timestamp st).2 = none ∧
    (process_query_background request_id prompt models aggregator raw
        aggOutcome timestamp st).1.query_results request_id
      = some (.failed "All model queries failed") ∧
    (process_query_background request_id prompt models aggregator raw
        aggOutcome timestamp st).1.query_status = st.query_status ∧
    (process_query_background request_id prompt models aggregator raw
        aggOutcome timestamp st).1.query_log = st.query_log := by
  have hfilter : raw.filter (fun r => errorFalsy r.error) = [] := by
    rw [List.filter_eq_nil_iff]
    intro r hr
    simp [hall r hr]
  simp [process_query_background, hfilter]

/-- Witness for C10 at a concrete all-failed fan-out. -/
theorem all_failed_skips_aggregation_witness :
    (process_query_background "r10" "p" ["m"] "agg" [⟨"m", "", 0, some "boom"⟩]
        (.ok "unused") "t" ⟨StrMap.empty, StrMap.empty, []⟩).2 = none ∧
    (process_query_background "r10" "p" ["m"] "agg" [⟨"m", "", 0, some "boom"⟩]
        (.ok "unused") "t" ⟨StrMap.empty, StrMap.empty, []⟩).1.query_results "r10"
      = some (.failed "All model queries failed") ∧
    (process_query_background "r10" "p" ["m"] "agg" [⟨"m", "", 0, some "boom"⟩]
        (.ok "unused") "t"
        ⟨StrMap.empty, StrMap.empty, []⟩).1.query_status = StrMap.empty ∧
    (process_query_background "r10" "p" ["m"] "agg" [⟨"m", "", 0, some "boom"⟩]
        (.ok "unused") "t" ⟨StrMap.empty, StrMap.empty, []⟩).1.query_log = [] :=
  all_failed_skips_aggregation "r10" "p" ["m"] "agg" "t"
    [⟨"m", "", 0, some "boom"⟩] (.ok "unused") ⟨StrMap.empty, StrMap.empty, []⟩
    (by decide)

/-! ## C5: the aggregator model identifier (corrected)

The claim says the suffix requesting web search is passed through to the
synthesis call; the code deliberately strips `:online`
(main.py lines 176-178). -/

/-- C5 counterexample: for the aggregator `anthropic/claude-sonnet-4.5:online`
supplied in the chat request, the model identifier passed to the synthesis
call is `anthropic/claude-sonnet-4.5`, not the supplied identifier: the
`:online` web-search suffix is not preserved. -/
theorem aggregator_suffix_not_preserved :
    (aggregate_call "q" [] "anthropic/claude-sonnet-4.5:online").model
      = "anthropic/claude-sonnet-4.5" ∧
    "anthropic/claude-sonnet-4.5" ≠ "anthropic/claude-sonnet-4.5:online" := by
  constructor
  · decide
  · decide

/-- C5 as amended: for every aggregator identifier among the available
aggregator models, the model identifier passed to the final synthesis call is
the supplied aggregator with its `:online` web-search suffix removed
(identifiers without the suffix pass through unchanged). -/
theorem aggregation_model_strips_online_suffix (query : String)
    (responses : List ModelResult) (aggregator : String)
    (h : aggregator ∈ AGGREGATOR_MODELS) :
    (aggregate_call query responses aggregator).model
      = specStripOnlineSuffix aggregator := by
  simp only [AGGREGATOR_MODELS, AVAILABLE_MODELS, List.mem_append,
    List.mem_cons, List.mem_singleton, List.not_mem_nil, or_false] at h
  rcases h with (h | h | h | h | h) | h <;> subst h <;> rfl

/-- Witness for C5's amended theorem at a concrete aggregator. -/
theorem aggregation_model_strips_online_suffix_witness :
    (aggregate_call "q" [] "openai/gpt-4o:online").model
      = specStripOnlineSuffix "openai/gpt-4o:online" :=
  aggregation_model_strips_online_suffix "q" [] "openai/gpt-4o:online"
    (by decide)

/-! ## C8: the logger appends exactly one record -/

/-- C8: on every completed query — the request id is in the status map, as
`chat` guarantees for every issued id, and at least one model succeeded (its
error falsy, per the source's truthiness test) — the processor appends
exactly one log record: timestamp, user prompt, models used, aggregator,
individual responses, aggregated response and the summed token total; and
every record previously in the log is still there, unchanged and at its old
position.  (With the id absent, the line-299 `KeyError` would skip the log
write entirely, which is why the presence hypothesis is part of the claim's
"completed query".) -/
theorem log_appends_one_record (request_id prompt : String)
    (models : List String) (aggregator timestamp : String)
    (raw : List ModelResult) (aggOutcome : Except String String) (st : AppState)
    (rs : RequestStatus) (hid : st.query_status request_id = some rs)
    (h : ∃ r ∈ raw, errorFalsy r.error = true) :
    (process_query_background request_id prompt models aggregator raw
        aggOutcome timestamp st).1.query_log
      = st.query_log ++
        [{ timestamp := timestamp, user_prompt := prompt, models_used := models,
           aggregator := aggregator, individual_responses := raw,
           aggregated_response := aggregate_responses aggOutcome,
           total_tokens := (raw.map (fun r => r.tokens)).sum }] ∧
    (∀ i, i < st.query_log.length →
      (process_query_background request_id prompt models aggregator raw
          aggOutcome timestamp st).1.query_log[i]? = st.query_log[i]?) ∧
    (process_query_background request_id prompt models aggregator raw
        aggOutcome timestamp st).1.query_log.length
      = st.query_log.length + 1 := by
  obtain ⟨r, hr, he⟩ := h
  have hne : ¬ raw.filter (fun r => errorFalsy r.error) = [] := by
    intro hnil
    rw [List.filter_eq_nil_iff] at hnil
    exact hnil r hr (by simp [he])
  refine ⟨?_, ?_, ?_⟩
  · unfold process_query_background
    rw [if_neg hne, hid]
  · intro i hi
    unfold process_query_background
    rw [if_neg hne, hid]
    simp [List.getElem?_append, hi]
  · unfold process_query_background
    rw [if_neg hne, hid]
    simp

/-- Witness for C8 at a concrete completed query over an empty log, with the
request id installed in the status map as `chat` leaves it. -/
theorem log_appends_one_record_witness :
    (process_query_background "r8" "p" ["m"] "agg" [⟨"m", "resp", 5, none⟩]
        (.ok "agg") "t"
        ⟨StrMap.empty.set "r8"
          { models := fun _ => none, aggregation_status := "pending" },
         StrMap.empty, []⟩).1.query_log
      = [{ timestamp := "t", user_prompt := "p", models_used := ["m"],
           aggregator := "agg", individual_responses := [⟨"m", "resp", 5, none⟩],
           aggregated_response := "agg", total_tokens := 5 }] ∧
    (∀ i, i < (0 : Nat) →
      (process_query_background "r8" "p" ["m"] "agg" [⟨"m", "resp", 5, none⟩]
          (.ok "agg") "t"
          ⟨StrMap.empty.set "r8"
            { models := fun _ => none, aggregation_status := "pending" },
           StrMap.empty, []⟩).1.query_log[i]?
        = ([] : List LogRecord)[i]?) ∧
    (process_query_background "r8" "p" ["m"] "agg" [⟨"m", "resp", 5, none⟩]
        (.ok "agg") "t"
        ⟨StrMap.empty.set "r8"
          { models := fun _ => none, aggregation_status := "pending" },
         StrMap.empty, []⟩).1.query_log.length
      = 0 + 1 :=
  log_appends_one_record "r8" "p" ["m"] "agg" "t" [⟨"m", "resp", 5, none⟩]
    (.ok "agg")
    ⟨StrMap.empty.set "r8"
      { models := fun _ => none, aggregation_status := "pending" },
     StrMap.empty, []⟩
    { models := fun _ => none, aggregation_status := "pending" }
    (StrMap.set_self StrMap.empty "r8"
      ({ models := fun _ => none, aggregation_status := "pending" } : RequestStatus))
    ⟨⟨"m", "resp", 5, none⟩, by simp, rfl⟩

/-! ## C3: the five-value status enum is an invariant -/

/-- The empty status map satisfies the invariant. -/
theorem validStatusMap_empty : validStatusMap StrMap.empty := by
  intro rid rs h
  simp [StrMap.empty] at h

/-- Setting a whole request entry whose per-model statuses are all valid
preserves the invariant. -/
theorem validStatusMap_set {qs : StrMap RequestStatus} (h : validStatusMap qs)
    {rid : String} {rs : RequestStatus}
    (hrs : ∀ m e, rs.models m = some e → validStatus e.status) :
    validStatusMap (qs.set rid rs) := by
  intro rid2 rs2 h2 m e he
  by_cases hr : rid2 = rid
  · subst hr
    rw [StrMap.set_self] at h2
    cases h2
    exact hrs m e he
  · rw [StrMap.set_other _ _ _ _ hr] at h2
    exact h rid2 rs2 h2 m e he

/-- The guarded per-model status write preserves the invariant when the
written status is one of the five values. -/
theorem validStatusMap_setModelStatus {qs : StrMap RequestStatus}
    (h : validStatusMap qs) {request_id : Option String} {model : String}
    {e : ModelEntry} (he : validStatus e.status) :
    validStatusMap (setModelStatus qs request_id model e) := by
  cases request_id with
  | none => simpa [setModelStatus] using h
  | some r =>
    by_cases hr : r = ""
    · simpa [setModelStatus, hr] using h
    · cases hq : qs r with
      | none => simpa [setModelStatus, hr, hq] using h
      | some rs =>
        have hrw : setModelStatus qs (some r) model e
            = qs.set r { rs with models := rs.models.set model e } := by
          simp [setModelStatus, hr, hq]
        rw [hrw]
        apply validStatusMap_set h
        intro m2 e2 h2
        have h2b : rs.models.set model e m2 = some e2 := h2
        by_cases hm : m2 = model
        · subst hm
          rw [StrMap.set_self] at h2b
          cases h2b
          exact he
        · rw [StrMap.set_other _ _ _ _ hm] at h2b
          exact h r rs hq m2 e2 h2b

/-- C3: every operation that writes the status map — `chat` (which writes
`pending`), `query_model` (which writes `querying` and then `completed`,
`timeout` or `error`), and the background processor (which writes only the
aggregation status) — preserves the invariant that every stored per-model
status is one of the five enum values. -/
theorem status_enum_invariant (req : ChatRequest)
    (fresh_id model prompt : String) (request_id : Option String)
    (outcome : CallOutcome) (t1 t2 : Nat)
    (rid2 prompt2 aggregator timestamp : String) (models2 : List String)
    (raw : List ModelResult) (aggOutcome : Except String String)
    (results : StrMap StoredResult) (log : List LogRecord)
    (qs : StrMap RequestStatus) (h : validStatusMap qs) :
    validStatusMap (chat req fresh_id qs).2 ∧
    validStatusMap (query_model model prompt request_id outcome t1 t2 qs).2 ∧
    validStatusMap (process_query_background rid2 prompt2 models2 aggregator
        raw aggOutcome timestamp ⟨qs, results, log⟩).1.query_status := by
  refine ⟨?_, ?_, ?_⟩
  · simp only [chat]
    split
    · exact h
    · split
      · exact h
      · apply validStatusMap_set h
        intro m e he
        have he2 : (if req.models.contains m = true then some pendingEntry
            else none) = some e := he
        split at he2
        · cases he2
          exact Or.inl rfl
        · cases he2
  · cases outcome with
    | success content usage =>
      exact validStatusMap_setModelStatus
        (validStatusMap_setModelStatus h (Or.inr (Or.inl rfl)))
        (Or.inr (Or.inr (Or.inl rfl)))
    | timedOut =>
      exact validStatusMap_setModelStatus
        (validStatusMap_setModelStatus h (Or.inr (Or.inl rfl)))
        (Or.inr (Or.inr (Or.inr (Or.inr rfl))))
    | failure msg =>
      exact validStatusMap_setModelStatus
        (validStatusMap_setModelStatus h (Or.inr (Or.inl rfl)))
        (Or.inr (Or.inr (Or.inr (Or.inl rfl))))
  · simp only [process_query_background]
    split
    · exact h
    · split
      · exact h
      · next rs heq =>
        exact @validStatusMap_set
          (qs.set rid2 { rs with aggregation_status := "running" })
          (@validStatusMap_set qs h rid2
            { rs with aggregation_status := "running" }
            (fun m e he => h rid2 rs heq m e he))
          rid2
          { rs with aggregation_status := "completed" }
          (fun m e he => h rid2 rs heq m e he)

/-- Witness for C3: the invariant holds after each operation runs on the
empty status map. -/
theorem status_enum_invariant_witness :
    validStatusMap (chat { prompt := "p", models := ["openai/gpt-4o:online"] }
        "r3" StrMap.empty).2 ∧
    validStatusMap (query_model "m" "p" (some "r3") .timedOut 0 1 StrMap.empty).2 ∧
    validStatusMap (process_query_background "r3" "p" ["m"] "agg"
        [⟨"m", "ok", 1, none⟩] (.ok "agg") "t"
        ⟨StrMap.empty, StrMap.empty, []⟩).1.query_status :=
  status_enum_invariant { prompt := "p", models := ["openai/gpt-4o:online"] }
    "r3" "m" "p" (some "r3") .timedOut 0 1 "r3" "p" "agg" "t" ["m"]
    [⟨"m", "ok", 1, none⟩] (.ok "agg") StrMap.empty [] StrMap.empty
    validStatusMap_empty

/-! ## Substring lemmas for the aggregation prompt -/

/-- The accumulator loop of the clean-up computes the claim-side recursion:
the kept lines are the accumulator plus `specCleanAux` of the rest. -/
theorem cleanLines_eq_spec : ∀ (lines : List String) (skip : Bool)
    (acc : List String),
    (lines.foldl cleanStep (skip, acc)).2 = acc ++ specCleanAux skip lines := by
  intro lines
  induction lines with
  | nil => intro skip acc; simp [specCleanAux]
  | cons l ls ih =>
    intro skip acc
    rw [List.foldl_cons]
    by_cases hp : lineHasPhrase l = true
    · have hstep : cleanStep (skip, acc) l = (true, acc) := by
        simp [cleanStep, hp]
      rw [hstep, ih]
      simp [specCleanAux, hp]
    · have hp2 : lineHasPhrase l = false := by
        simpa using hp
      cases skip with
      | false =>
        have hstep : cleanStep (false, acc) l = (false, acc ++ [l]) := by
          simp [cleanStep, hp2]
        rw [hstep, ih]
        simp [specCleanAux, hp2, List.append_assoc]
      | true =>
        cases ha : (pyStrip l == "") with
        | false =>
          cases hb : startsWithSpace l with
          | false =>
            have hstep : cleanStep (true, acc) l = (false, acc ++ [l]) := by
              simp [cleanStep, hp2, bne, ha, hb]
            rw [hstep, ih]
            simp [specCleanAux, hp2, followerLine, ha, hb, List.append_assoc]
          | true =>
            have hstep : cleanStep (true, acc) l = (true, acc) := by
              simp [cleanStep, hp2, bne, ha, hb]
            rw [hstep, ih]
            simp [specCleanAux, hp2, followerLine, ha, hb]
        | true =>
          have hstep : cleanStep (true, acc) l = (true, acc) := by
            simp [cleanStep, hp2, bne, ha]
          rw [hstep, ih]
          simp [specCleanAux, hp2, followerLine, ha]

/-- When no line contains a phrase, the claim-side clean-up keeps every
line. -/
theorem specCleanAux_id_of_no_phrase : ∀ (lines : List String),
    (∀ l ∈ lines, lineHasPhrase l = false) →
    specCleanAux false lines = lines := by
  intro lines
  induction lines with
  | nil => intro _; rfl
  | cons l ls ih =>
    intro h
    have hl := h l (by simp)
    simp [specCleanAux, hl, ih (fun x hx => h x (by simp [hx]))]

/-- Splitting on newlines never yields an empty list of parts. -/
theorem splitNlCL_ne_nil (l : List Char) : splitNlCL l ≠ [] := by
  cases l with
  | nil => simp [splitNlCL]
  | cons c rest =>
    simp only [splitNlCL]
    split
    · simp
    · split <;> simp

/-- Joining with newlines undoes splitting on newlines. -/
theorem joinNl_splitNl : ∀ (l : List Char), joinNlCL (splitNlCL l) = l := by
  intro l
  induction l with
  | nil => rfl
  | cons c rest ih =>
    simp only [splitNlCL]
    cases hc : (c == '\n') with
    | true =>
      have hc2 : c = '\n' := by simpa using hc
      rw [if_pos rfl]
      cases hs : splitNlCL rest with
      | nil => exact absurd hs (splitNlCL_ne_nil rest)
      | cons a ss =>
        rw [hs] at ih
        subst hc2
        show joinNlCL ([] :: a :: ss) = '\n' :: rest
        simp [joinNlCL, ih]
    | false =>
      rw [if_neg (by simp)]
      cases hs : splitNlCL rest with
      | nil => exact absurd hs (splitNlCL_ne_nil rest)
      | cons a ss =>
        rw [hs] at ih
        cases ss with
        | nil =>
          simp only [joinNlCL] at ih ⊢
          rw [ih]
        | cons b ss2 =>
          simp only [joinNlCL] at ih ⊢
          rw [List.cons_append, ih]

/-- `'\n'.join` undoes `split('\n')` at the `String` level. -/
theorem pyJoinLines_pySplitLines (s : String) :
    pyJoinLines (pySplitLines s) = s := by
  unfold pyJoinLines pySplitLines
  rw [List.map_map]
  have hcomp : (String.data ∘ fun l => (⟨l⟩ : String)) = id := rfl
  rw [hcomp, List.map_id, joinNl_splitNl]

/-- Dropping a prefix twice is the same as dropping it once. -/
theorem dropWhile_idem (p : Char → Bool) :
    ∀ l, List.dropWhile p (List.dropWhile p l) = List.dropWhile p l := by
  intro l
  induction l with
  | nil => rfl
  | cons c rest ih =>
    cases hp : p c with
    | false => simp [List.dropWhile, hp]
    | true => simp [List.dropWhile, hp, ih]

/-- The head surviving `dropWhile` fails the predicate. -/
theorem dropWhile_head_false (p : Char → Bool) :
    ∀ l c, (List.dropWhile p l).head? = some c → p c = false := by
  intro l
  induction l with
  | nil => intro c h; simp [List.dropWhile] at h
  | cons a rest ih =>
    intro c h
    cases hp : p a with
    | false =>
      rw [List.dropWhile_cons_of_neg (by simp [hp])] at h
      simp at h
      rw [← h]
      exact hp
    | true =>
      rw [List.dropWhile_cons_of_pos hp] at h
      exact ih c h

/-- A list whose head fails the predicate is unchanged by `dropWhile`. -/
theorem dropWhile_eq_self (p : Char → Bool) (l : List Char)
    (h : ∀ c, l.head? = some c → p c = false) : List.dropWhile p l = l := by
  cases l with
  | nil => rfl
  | cons a rest => exact List.dropWhile_cons_of_neg (by simp [h a rfl])

/-- Python's `strip` is idempotent. -/
theorem stripCL_idem (l : List Char) : stripCL (stripCL l) = stripCL l := by
  unfold stripCL
  set A := l.dropWhile pyIsSpace with hA
  set B := A.reverse.dropWhile pyIsSpace with hB
  have hpre : B.reverse <+: A := by
    have h1 : B <:+ A.reverse := by
      rw [hB]
      exact List.dropWhile_suffix _
    have h2 := h1.reverse
    rwa [List.reverse_reverse] at h2
  have hhead : ∀ c, B.reverse.head? = some c → pyIsSpace c = false := by
    intro c hc
    obtain ⟨t, ht⟩ := hpre
    cases hBr : B.reverse with
    | nil => rw [hBr] at hc; simp at hc
    | cons x xs =>
      rw [hBr] at hc
      simp at hc
      have hx : A.head? = some x := by
        rw [← ht, hBr]
        simp
      rw [← hc]
      exact dropWhile_head_false pyIsSpace l x hx
  rw [dropWhile_eq_self pyIsSpace B.reverse hhead, List.reverse_reverse, hB,
    dropWhile_idem]

/-- Python's `strip` is idempotent, at the `String` level. -/
theorem pyStrip_idem (s : String) : pyStrip (pyStrip s) = pyStrip s := by
  show (⟨stripCL (stripCL s.data)⟩ : String) = ⟨stripCL s.data⟩
  rw [stripCL_idem]

/-! ## C7: the optimizer clean-up (corrected)

The claim omits the final `strip()` (main.py line 498): after phrase lines
are removed, kept blank lines that end up leading or trailing are stripped
away as well, so the output is not always exactly the kept lines. -/

/-- C7 counterexample: on the already-stripped model output
`"a\n\nbased on x"`, the clean-up keeps the lines `"a"` and `""` (the blank
line precedes the phrase line, so the claim keeps it unchanged), yet the code
returns `"a"`, not `"a\n"`: the final strip removed the kept blank line. -/
theorem optimize_cleanup_not_exactly_kept_lines :
    optimize_cleanup "a\n\nbased on x" = "a" ∧
    claimedCleanup "a\n\nbased on x" = "a\n" ∧
    ("a" : String) ≠ "a\n" := by
  refine ⟨by decide, by decide, by decide⟩

/-- C7 as amended: the clean-up removes exactly the phrase lines plus their
immediately following blank or space-indented lines and keeps every other
line in order, except that the rejoined text is finally stripped of leading
and trailing whitespace; a text with no phrase line comes back unchanged
apart from that stripping. -/
theorem optimize_cleanup_amended (raw : String) :
    optimize_cleanup raw = pyStrip (claimedCleanup raw) ∧
    ((∀ l ∈ pySplitLines (pyStrip raw), lineHasPhrase l = false) →
      optimize_cleanup raw = pyStrip raw) := by
  have hclean : cleanLines (pySplitLines (pyStrip raw))
      = specCleanAux false (pySplitLines (pyStrip raw)) := by
    have h := cleanLines_eq_spec (pySplitLines (pyStrip raw)) false []
    simpa [cleanLines] using h
  constructor
  · show pyStrip (pyJoinLines (cleanLines (pySplitLines (pyStrip raw))))
      = pyStrip (claimedCleanup raw)
    rw [hclean]
    rfl
  · intro hnophrase
    show pyStrip (pyJoinLines (cleanLines (pySplitLines (pyStrip raw))))
      = pyStrip raw
    rw [hclean, specCleanAux_id_of_no_phrase _ hnophrase,
      pyJoinLines_pySplitLines, pyStrip_idem]

end SChat
